import Mathlib

/-
Verification of the CARLA no-rendering-mode 2D visualizer
(`PythonAPI/no_rendering_mode.py`).

The script is a single-threaded pygame frame loop over three modules
(Input, Hud, World) held by a `ModuleManager`.  This development gives a
shallow embedding of its data model and operations:

* Python floats that hold exact decimal literals (`0.1`, actor
  coordinates) are modelled as rationals `ℚ`, so the arithmetic of the
  source (`scale_x += 0.1`, `int(1280 * scale_x)`) is exact.
* Python `int()` applied to a number is truncation toward zero,
  modelled by `pyInt`.
* Drawing calls (`pygame.draw.circle`, `pygame.draw.lines`,
  `surface.fill`, `display.blit`) are modelled as a list of draw
  commands emitted in program order.
* Exceptions (`sys.exit`, an uncaught error from `world.get_actors()`)
  are modelled with `Except`: an `Except.error` value propagates through
  callers exactly where the source has no `try` block.
-/

set_option autoImplicit false

namespace NoRendering

/-- Python `int()` on a number: truncation toward zero. -/
def pyInt (q : ℚ) : ℤ := if q < 0 then -⌊-q⌋ else ⌊q⌋

theorem pyInt_of_nonneg (q : ℚ) (h : 0 ≤ q) : pyInt q = ⌊q⌋ := by
  rw [pyInt, if_neg (not_lt.mpr h)]

theorem pyInt_of_neg (q : ℚ) (h : q < 0) : pyInt q = ⌈q⌉ := by
  rw [pyInt, if_pos h, ← Int.ceil_neg, neg_neg]

/-- Python substring containment `needle in haystack` on character lists:
true iff `needle` is a prefix of some suffix of `haystack`. -/
def substr_in (needle : List Char) : List Char → Bool
  | [] => needle.isEmpty
  | c :: rest => List.isPrefixOf needle (c :: rest) || substr_in needle rest

/-- The 3D location carried by a CARLA actor (`actor.get_location()`). -/
structure Location where
  x : ℚ
  y : ℚ
  z : ℚ
deriving DecidableEq

/-- A CARLA actor as used by the script: its `type_id` string and its
location. -/
structure Actor where
  type_id : String
  location : Location
deriving DecidableEq

/-- Predicate of the list comprehension in `ModuleWorld.render_actors`:
`filter in actor.type_id`. -/
def type_matches (filt : String) (a : Actor) : Bool :=
  substr_in filt.toList a.type_id.toList

/-- RGB color triple as passed to pygame. -/
abbrev Color := ℕ × ℕ × ℕ

/-- One pygame drawing call recorded by the model. -/
inductive DrawCmd where
  | fill (c : Color)
  | polyline (c : Color) (closed : Bool) (points : List (ℤ × ℤ)) (width : ℕ)
  | circle (c : Color) (center : ℤ × ℤ) (radius : ℕ) (width : ℕ)
  | blit (size : ℤ × ℤ) (pos : ℤ × ℤ)
deriving DecidableEq

/-- `ModuleWorld.render_actors(display, actors, filter, color)`: keep the
actors whose `type_id` contains `filt`, and draw each at the truncated
(x, y) of its location as a circle of radius 2, width 1. -/
def render_actors (actors : List Actor) (filt : String) (color : Color) : List DrawCmd :=
  (actors.filter (type_matches filt)).map
    (fun a => .circle color (pyInt a.location.x, pyInt a.location.y) 2 1)

/-- `ModuleWorld.render_map`: draw the waypoint list as one open magenta
polyline of width 1 through the truncated (x, y) of each waypoint. -/
def render_map (waypoints : List Location) : List DrawCmd :=
  [.polyline (255, 0, 255) false (waypoints.map (fun w => (pyInt w.x, pyInt w.y))) 1]

/-- Pan/zoom globals of the script (`offset_x`, `offset_y`, `scale_x`,
`scale_y`). -/
structure ViewState where
  offset_x : ℤ
  offset_y : ℤ
  scale_x : ℚ
  scale_y : ℚ
deriving DecidableEq

/-- Initial values of the globals: offsets 250, scales 1. -/
def initViewState : ViewState := ⟨250, 250, 1, 1⟩

/-- `ModuleWorld.render(display)`: fill the internal surface black, draw
the map, draw the three actor filters in order (vehicle red,
traffic_light green, speed_limit blue), then scale the internal surface
to `(int(1280 * scale_x), int(720 * scale_y))` and blit it at
`(offset_x, offset_y)`.  `surface_size` is the size the internal surface
was created with (the window resolution); `pygame.transform.scale`
ignores it when choosing the output size. -/
def ModuleWorld.render (surface_size : ℤ × ℤ) (actors : List Actor)
    (waypoints : List Location) (vs : ViewState) : List DrawCmd :=
  DrawCmd.fill (0, 0, 0) ::
    (render_map waypoints ++
     render_actors actors "vehicle" (255, 0, 0) ++
     render_actors actors "traffic_light" (0, 255, 0) ++
     render_actors actors "speed_limit" (0, 0, 255) ++
     [DrawCmd.blit (pyInt (1280 * vs.scale_x), pyInt (720 * vs.scale_y))
        (vs.offset_x, vs.offset_y)])

/-- Recognizes a circle draw command of the given color. -/
def is_circle_of (c : Color) : DrawCmd → Bool
  | .circle cc _ _ _ => cc == c
  | _ => false

theorem filter_is_circle_of_map (c cc : Color) (f : Actor → ℤ × ℤ) (l : List Actor) :
    (l.map (fun a => DrawCmd.circle c (f a) 2 1)).filter (is_circle_of cc) =
      if c = cc then l.map (fun a => DrawCmd.circle c (f a) 2 1) else [] := by
  induction l with
  | nil => simp
  | cons a as ih =>
    by_cases h : c = cc <;> simp [List.filter_cons, is_circle_of, h, ih]

/-- The marker each actor contributes under a given filter color. -/
def marker (c : Color) (a : Actor) : DrawCmd :=
  .circle c (pyInt a.location.x, pyInt a.location.y) 2 1

theorem render_actors_eq_marker_map (actors : List Actor) (filt : String) (c : Color) :
    render_actors actors filt c = (actors.filter (type_matches filt)).map (marker c) := rfl

/-- C2: in every `ModuleWorld.render`, the circle markers of each filter
color are exactly the actors matched by the corresponding substring
filter, in actor-list order, once per actor per matching filter: red
(255,0,0) for "vehicle", green (0,255,0) for "traffic_light", blue
(0,0,255) for "speed_limit".  An actor whose `type_id` contains several
filter substrings therefore appears once in each matching color. -/
theorem C2_markers_once_per_matching_filter (sz : ℤ × ℤ) (actors : List Actor)
    (waypoints : List Location) (vs : ViewState) :
    (ModuleWorld.render sz actors waypoints vs).filter (is_circle_of (255, 0, 0)) =
        (actors.filter (type_matches "vehicle")).map (marker (255, 0, 0))
      ∧ (ModuleWorld.render sz actors waypoints vs).filter (is_circle_of (0, 255, 0)) =
        (actors.filter (type_matches "traffic_light")).map (marker (0, 255, 0))
      ∧ (ModuleWorld.render sz actors waypoints vs).filter (is_circle_of (0, 0, 255)) =
        (actors.filter (type_matches "speed_limit")).map (marker (0, 0, 255)) := by
  refine ⟨?_, ?_, ?_⟩ <;>
    simp [ModuleWorld.render, render_map, render_actors, marker, List.filter_append,
      filter_is_circle_of_map, is_circle_of]

/-- C3: marker positions truncate the actor location's x and y toward
zero (`pyInt` is the floor for nonnegative inputs and the ceiling for
negative inputs), the z coordinate is ignored, and in particular an
actor at (12.7, -3.2, z) is drawn at (12, -3) for every z. -/
theorem C3_marker_position_truncates :
    (∀ z : ℚ, render_actors [⟨"vehicle.lincoln", ⟨12.7, -3.2, z⟩⟩] "vehicle" (255, 0, 0) =
        [.circle (255, 0, 0) (12, -3) 2 1])
      ∧ (∀ q : ℚ, 0 ≤ q → pyInt q = ⌊q⌋)
      ∧ (∀ q : ℚ, q < 0 → pyInt q = ⌈q⌉) := by
  refine ⟨?_, pyInt_of_nonneg, pyInt_of_neg⟩
  intro z
  have hx : pyInt 12.7 = 12 := by
    rw [pyInt_of_nonneg _ (by norm_num)]; norm_num
  have hy : pyInt (-3.2) = -3 := by
    rw [pyInt_of_neg _ (by norm_num),
      show (-3.2 : ℚ) = -(16 / 5) by norm_num, Int.ceil_neg]
    norm_num
  have hm : type_matches "vehicle" ⟨"vehicle.lincoln", ⟨12.7, -3.2, z⟩⟩ = true := by
    simp [type_matches, substr_in]
  simp [render_actors, hm, hx, hy]

/-- Witness for C3 at concrete inputs. -/
theorem C3_witness :
    render_actors [⟨"vehicle.lincoln", ⟨12.7, -3.2, 5.0⟩⟩] "vehicle" (255, 0, 0) =
        [.circle (255, 0, 0) (12, -3) 2 1]
      ∧ pyInt 7.5 = 7 ∧ pyInt (-7.5) = -7 := by
  refine ⟨C3_marker_position_truncates.1 5.0, ?_, ?_⟩
  · rw [C3_marker_position_truncates.2.1 7.5 (by norm_num)]; norm_num
  · rw [C3_marker_position_truncates.2.2 (-7.5) (by norm_num),
      show (-7.5 : ℚ) = -(15 / 2) by norm_num, Int.ceil_neg]
    norm_num

/-- pygame key code for the Escape key. -/
def K_ESCAPE : ℕ := 27

/-- A pygame event as discriminated by `ModuleInput._parse_events`:
`QUIT`, `KEYUP` with a key code, `MOUSEBUTTONDOWN` with a button number
(4 = wheel up, 5 = wheel down), or any other event type. -/
inductive PyEvent where
  | quit
  | keyUp (key : ℕ)
  | mouseButtonDown (button : ℕ)
  | other
deriving DecidableEq

/-- The state owned by `ModuleInput`: the last known mouse position. -/
structure InputState where
  mouse_pos : ℤ × ℤ
deriving DecidableEq

/-- Handling of one event inside the loop of `ModuleInput._parse_events`.
`cur_mouse` is what `pygame.mouse.get_pos()` returns during this poll.
`Except.error ()` models `exit_game()` being invoked (it raises
`SystemExit`, so no later event of the batch is processed). -/
def ModuleInput.parse_one_event (cur_mouse : ℤ × ℤ) (st : InputState × ViewState) :
    PyEvent → Except Unit (InputState × ViewState)
  | .quit => .error ()
  | .keyUp k => if k = K_ESCAPE then .error () else .ok st
  | .mouseButtonDown b =>
    let st1 : InputState × ViewState := (⟨cur_mouse⟩, st.2)
    let st2 : InputState × ViewState :=
      if b = 4 then
        (st1.1, { st1.2 with scale_x := st1.2.scale_x + 0.1, scale_y := st1.2.scale_y + 0.1 })
      else st1
    let st3 : InputState × ViewState :=
      if b = 5 then
        (st2.1, { st2.2 with scale_x := st2.2.scale_x - 0.1, scale_y := st2.2.scale_y - 0.1 })
      else st2
    .ok st3
  | .other => .ok st

/-- `ModuleInput._parse_events`: fold the handler over the pending event
batch, stopping at the first event that invokes `exit_game`. -/
def ModuleInput.parse_events (cur_mouse : ℤ × ℤ) :
    List PyEvent → InputState × ViewState → Except Unit (InputState × ViewState)
  | [], st => .ok st
  | e :: rest, st =>
    match ModuleInput.parse_one_event cur_mouse st e with
    | .error x => .error x
    | .ok st1 => ModuleInput.parse_events cur_mouse rest st1

/-- `ModuleInput._parse_mouse`: while the left button is held, add the
mouse delta since the last poll to the pan offsets and remember the
current mouse position; otherwise do nothing. -/
def ModuleInput.parse_mouse (pressed : Bool) (cur_mouse : ℤ × ℤ)
    (st : InputState × ViewState) : InputState × ViewState :=
  if pressed then
    (⟨cur_mouse⟩,
     { st.2 with
        offset_x := st.2.offset_x + (cur_mouse.1 - st.1.mouse_pos.1),
        offset_y := st.2.offset_y + (cur_mouse.2 - st.1.mouse_pos.2) })
  else st

/-- `ModuleInput.parse_input` (called from `ModuleInput.tick`): events,
then keys (a no-op), then mouse drag. -/
def ModuleInput.parse_input (events : List PyEvent) (cur_mouse : ℤ × ℤ) (pressed : Bool)
    (st : InputState × ViewState) : Except Unit (InputState × ViewState) :=
  match ModuleInput.parse_events cur_mouse events st with
  | .error x => .error x
  | .ok st1 => .ok (ModuleInput.parse_mouse pressed cur_mouse st1)

theorem parse_one_wheel_down (cur : ℤ × ℤ) (st : InputState × ViewState) :
    ModuleInput.parse_one_event cur st (.mouseButtonDown 5) =
      .ok (⟨cur⟩, { st.2 with scale_x := st.2.scale_x - 0.1, scale_y := st.2.scale_y - 0.1 }) := by
  simp [ModuleInput.parse_one_event]

theorem parse_events_wheel_down (cur : ℤ × ℤ) (n : ℕ) (inp : InputState) (vs : ViewState) :
    ModuleInput.parse_events cur (List.replicate n (.mouseButtonDown 5)) (inp, vs) =
      .ok (⟨if n = 0 then inp.mouse_pos else cur⟩,
        { vs with scale_x := vs.scale_x - n * 0.1, scale_y := vs.scale_y - n * 0.1 }) := by
  induction n generalizing inp vs with
  | zero => simp [ModuleInput.parse_events]
  | succ n ih =>
    rw [List.replicate_succ]
    simp only [ModuleInput.parse_events, parse_one_wheel_down cur (inp, vs)]
    rw [ih]
    simp only [ite_self, Nat.succ_ne_zero, if_neg, Nat.cast_add, Nat.cast_one,
      Except.ok.injEq, Prod.mk.injEq, ViewState.mk.injEq]
    repeat' apply And.intro
    all_goals first | trivial | ring

/-- C4: each wheel-up event adds exactly 0.1 to both zoom scale factors
and each wheel-down event subtracts exactly 0.1 from both; no bound is
enforced, so starting from the initial scales (1, 1), ten wheel-down
events reach scale 0 and an eleventh makes the scales negative. -/
theorem C4_wheel_zoom_step (cur : ℤ × ℤ) (st : InputState × ViewState) :
    ModuleInput.parse_one_event cur st (.mouseButtonDown 4) =
        .ok (⟨cur⟩, { st.2 with scale_x := st.2.scale_x + 0.1, scale_y := st.2.scale_y + 0.1 })
      ∧ ModuleInput.parse_one_event cur st (.mouseButtonDown 5) =
        .ok (⟨cur⟩, { st.2 with scale_x := st.2.scale_x - 0.1, scale_y := st.2.scale_y - 0.1 })
      ∧ ModuleInput.parse_events cur (List.replicate 10 (.mouseButtonDown 5))
          (⟨(0, 0)⟩, initViewState) = .ok (⟨cur⟩, ⟨250, 250, 0, 0⟩)
      ∧ ModuleInput.parse_events cur (List.replicate 11 (.mouseButtonDown 5))
          (⟨(0, 0)⟩, initViewState) = .ok (⟨cur⟩, ⟨250, 250, -0.1, -0.1⟩) := by
  refine ⟨by simp [ModuleInput.parse_one_event], by simp [ModuleInput.parse_one_event], ?_, ?_⟩
  · rw [parse_events_wheel_down]
    norm_num [initViewState]
  · rw [parse_events_wheel_down]
    norm_num [initViewState]

/-- C5: when the left button is held, `_parse_mouse` adds exactly the
difference between the current and last known mouse positions to the pan
offsets (no clamping) and then stores the current position as the last
known one; when the button is not held it changes nothing. -/
theorem C5_drag_pan_delta (cur : ℤ × ℤ) (st : InputState × ViewState) :
    ModuleInput.parse_mouse true cur st =
        (⟨cur⟩,
         { st.2 with
            offset_x := st.2.offset_x + (cur.1 - st.1.mouse_pos.1),
            offset_y := st.2.offset_y + (cur.2 - st.1.mouse_pos.2) })
      ∧ ModuleInput.parse_mouse false cur st = st := by
  constructor <;> simp [ModuleInput.parse_mouse]

/-- The state of `ModuleHUD` relevant to timing: the visibility flag,
the stored server frame rate, the tick count of the private server-side
`pygame.time.Clock`, and the two info text lines modelled as
(label, displayed integer) pairs (`'% 16d' % fps` truncates toward
zero). -/
structure HUDState where
  show_info : Bool
  server_fps : ℚ
  server_clock_ticks : ℕ
  info_text : List (String × ℤ)
deriving DecidableEq

/-- `ModuleHUD.on_world_tick(timestamp)`: tick the private server clock
and store its new rate reading as `server_fps`.  `fps_reading` is what
`self._server_clock.get_fps()` returns after the tick (wall-clock
dependent, so supplied as an input); the `timestamp` argument is
accepted and unused, exactly as in the source. -/
def ModuleHUD.on_world_tick (fps_reading : ℚ) (timestamp : ℚ) (h : HUDState) : HUDState :=
  { h with server_clock_ticks := h.server_clock_ticks + 1, server_fps := fps_reading }

/-- `ModuleHUD.tick(clock)`: when visible, rebuild the two info lines
from the stored server rate and the main loop clock's rate; otherwise do
nothing.  Touches neither `server_fps` nor the server clock. -/
def ModuleHUD.tick (client_fps : ℚ) (h : HUDState) : HUDState :=
  if h.show_info then
    { h with info_text := [("Server", pyInt h.server_fps), ("Client", pyInt client_fps)] }
  else h

/-- `ModuleWorld.on_world_tick(weak_self, timestamp)` (static): resolve
the weak reference; if the World module is gone, return without any
effect; otherwise locate the HUD module through the registry and forward
the timestamp to `ModuleHUD.on_world_tick`.  `weak_self` is the result
of calling the weak reference (`some` while the World module is alive,
`none` after it is destroyed); the HUD state is passed directly in place
of the registry lookup of the live HUD module. -/
def ModuleWorld.on_world_tick (weak_self : Option Unit) (fps_reading : ℚ) (timestamp : ℚ)
    (h : HUDState) : HUDState :=
  match weak_self with
  | none => h
  | some _ => ModuleHUD.on_world_tick fps_reading timestamp h

/-- C8: the simulator tick callback is a no-op once the weak reference
is dead; while it is live it forwards the timestamp to the HUD handler;
that handler ticks the server clock and overwrites `server_fps` with the
server clock reading; and the HUD's per-frame `tick` (driven by the main
loop clock) never changes `server_fps` or the server clock, so the
server rate is updated only by callback invocations, independently of
the client rate. -/
theorem C8_weak_tick_callback :
    (∀ (fps ts : ℚ) (h : HUDState), ModuleWorld.on_world_tick none fps ts h = h)
      ∧ (∀ (r : Unit) (fps ts : ℚ) (h : HUDState),
          ModuleWorld.on_world_tick (some r) fps ts h = ModuleHUD.on_world_tick fps ts h)
      ∧ (∀ (fps ts : ℚ) (h : HUDState),
          (ModuleHUD.on_world_tick fps ts h).server_fps = fps
            ∧ (ModuleHUD.on_world_tick fps ts h).server_clock_ticks = h.server_clock_ticks + 1)
      ∧ (∀ (cfps : ℚ) (h : HUDState),
          (ModuleHUD.tick cfps h).server_fps = h.server_fps
            ∧ (ModuleHUD.tick cfps h).server_clock_ticks = h.server_clock_ticks) := by
  refine ⟨fun _ _ _ => rfl, fun _ _ _ _ => rfl, fun _ _ _ => ⟨rfl, rfl⟩, fun cfps h => ?_⟩
  unfold ModuleHUD.tick
  by_cases hs : h.show_info <;> simp [hs]

/-- A registered module as seen by the `ModuleManager`: the manager only
reads the `name` attribute and calls `tick`/`render` dynamically. -/
structure Module where
  name : String
deriving DecidableEq

/-- A call observed during a manager pass. -/
inductive ManagerEv where
  | fill (c : Color)
  | tickCall (name : String)
  | renderCall (name : String)
deriving DecidableEq

/-- `ModuleManager.tick(clock)`: call `tick` on every registered module
in list order. -/
def ModuleManager.tick (modules : List Module) : List ManagerEv :=
  modules.map (fun m => .tickCall m.name)

/-- `ModuleManager.render(display)`: fill the display with black, then
call `render` on every registered module in list order. -/
def ModuleManager.render (modules : List Module) : List ManagerEv :=
  .fill (0, 0, 0) :: modules.map (fun m => .renderCall m.name)

/-- `ModuleManager.get_module(name)`: scan the list in order and return
the first module whose `name` equals the argument; fall off the end
(returning Python `None`) when there is no match. -/
def ModuleManager.get_module : List Module → String → Option Module
  | [], _ => none
  | m :: rest, nm => if m.name = nm then some m else ModuleManager.get_module rest nm

/-- C9: a manager tick pass produces exactly one `tick` call per
registered module, in registration order, and a render pass first fills
the surface with black (0,0,0) and then produces exactly one `render`
call per registered module, in registration order. -/
theorem C9_tick_render_order (ms : List Module) (i : ℕ) (hi : i < ms.length) :
    (ModuleManager.tick ms).length = ms.length
      ∧ (ModuleManager.tick ms)[i]? = some (.tickCall (ms.get ⟨i, hi⟩).name)
      ∧ (ModuleManager.render ms).head? = some (.fill (0, 0, 0))
      ∧ (ModuleManager.render ms).length = ms.length + 1
      ∧ (ModuleManager.render ms)[i + 1]? = some (.renderCall (ms.get ⟨i, hi⟩).name) := by
  refine ⟨by simp [ModuleManager.tick], ?_, rfl, by simp [ModuleManager.render], ?_⟩
  · simp [ModuleManager.tick, List.getElem?_map, List.getElem?_eq_getElem hi]
  · simp [ModuleManager.render, List.getElem?_map, List.getElem?_eq_getElem hi]

/-- Witness for C9 on the concrete module list of the script, at
index 1 (the Hud module). -/
theorem C9_witness :
    (ModuleManager.tick [⟨"Input"⟩, ⟨"Hud"⟩, ⟨"World"⟩]).length =
        ([⟨"Input"⟩, ⟨"Hud"⟩, ⟨"World"⟩] : List Module).length
      ∧ (ModuleManager.tick [⟨"Input"⟩, ⟨"Hud"⟩, ⟨"World"⟩])[1]? =
        some (.tickCall (([⟨"Input"⟩, ⟨"Hud"⟩, ⟨"World"⟩] : List Module).get ⟨1, by decide⟩).name)
      ∧ (ModuleManager.render [⟨"Input"⟩, ⟨"Hud"⟩, ⟨"World"⟩]).head? = some (.fill (0, 0, 0))
      ∧ (ModuleManager.render [⟨"Input"⟩, ⟨"Hud"⟩, ⟨"World"⟩]).length =
        ([⟨"Input"⟩, ⟨"Hud"⟩, ⟨"World"⟩] : List Module).length + 1
      ∧ (ModuleManager.render [⟨"Input"⟩, ⟨"Hud"⟩, ⟨"World"⟩])[1 + 1]? =
        some (.renderCall (([⟨"Input"⟩, ⟨"Hud"⟩, ⟨"World"⟩] : List Module).get ⟨1, by decide⟩).name) :=
  C9_tick_render_order [⟨"Input"⟩, ⟨"Hud"⟩, ⟨"World"⟩] 1 (by decide)

theorem get_module_of_no_match (ms : List Module) (nm : String)
    (h : ∀ m ∈ ms, m.name ≠ nm) : ModuleManager.get_module ms nm = none := by
  induction ms with
  | nil => rfl
  | cons m rest ih =>
    rw [ModuleManager.get_module, if_neg (h m (List.mem_cons_self m rest))]
    exact ih (fun x hx => h x (List.mem_cons_of_mem m hx))

theorem get_module_first_match (ms : List Module) (nm : String) (i : ℕ) (hi : i < ms.length)
    (hname : (ms.get ⟨i, hi⟩).name = nm)
    (hbefore : ∀ (j : ℕ) (hj : j < ms.length), j < i → (ms.get ⟨j, hj⟩).name ≠ nm) :
    ModuleManager.get_module ms nm = some (ms.get ⟨i, hi⟩) := by
  induction ms generalizing i with
  | nil => exact absurd hi (Nat.not_lt_zero i)
  | cons m rest ih =>
    match i with
    | 0 =>
      simp only [List.get] at hname ⊢
      rw [ModuleManager.get_module, if_pos hname]
    | j + 1 =>
      have hm : m.name ≠ nm := by
        have h0 := hbefore 0 (Nat.succ_pos _) (Nat.succ_pos _)
        simpa only [List.get] using h0
      simp only [List.get] at hname ⊢
      rw [ModuleManager.get_module, if_neg hm]
      exact ih j (Nat.lt_of_succ_lt_succ hi) hname
        (fun k hk hki => by
          have hk1 := hbefore (k + 1) (Nat.succ_lt_succ hk) (Nat.succ_lt_succ hki)
          simpa only [List.get] using hk1)

/-- C10: `get_module(name)` returns the first module in registration
order whose name equals the argument, and returns `None` (no exception,
no default) when no registered module has that name. -/
theorem C10_get_module_first (ms : List Module) (nm : String) :
    ((∀ m ∈ ms, m.name ≠ nm) → ModuleManager.get_module ms nm = none)
      ∧ (∀ (i : ℕ) (hi : i < ms.length), (ms.get ⟨i, hi⟩).name = nm →
          (∀ (j : ℕ) (hj : j < ms.length), j < i → (ms.get ⟨j, hj⟩).name ≠ nm) →
          ModuleManager.get_module ms nm = some (ms.get ⟨i, hi⟩)) :=
  ⟨get_module_of_no_match ms nm, fun i hi h1 h2 => get_module_first_match ms nm i hi h1 h2⟩

/-- Witness for C10: on the script's module list, looking up "Hud"
returns the Hud module (the first and only match) and looking up a name
that no module has returns `none`. -/
theorem C10_witness :
    ModuleManager.get_module [⟨"Input"⟩, ⟨"Hud"⟩, ⟨"World"⟩] "Hud" =
        some (([⟨"Input"⟩, ⟨"Hud"⟩, ⟨"World"⟩] : List Module).get ⟨1, by decide⟩)
      ∧ ModuleManager.get_module [⟨"Input"⟩, ⟨"Hud"⟩, ⟨"World"⟩] "Camera" = none := by
  constructor
  · exact (C10_get_module_first [⟨"Input"⟩, ⟨"Hud"⟩, ⟨"World"⟩] "Hud").2 1 (by decide)
      (by decide) (by decide)
  · exact (C10_get_module_first [⟨"Input"⟩, ⟨"Hud"⟩, ⟨"World"⟩] "Camera").1 (by decide)

/-- What the simulator/pygame environment does to one iteration of the
`while True` loop in `game_loop`: the frame passes without incident, an
Escape/window-close event makes `ModuleInput` call `exit_game()`, the
actor/map fetch in `ModuleWorld.render` raises an exception, or the user
presses Ctrl-C. -/
inductive FrameEvent where
  | ok
  | quitRequest
  | fetchFail
  | ctrlC
deriving DecidableEq

/-- A Python exception escaping `game_loop`. -/
inductive PyExc where
  | systemExit
  | runtimeError
  | keyboardInterrupt
deriving DecidableEq

/-- Process-level state threaded through the control-flow model: the
module registry of the global `module_manager`, whether `exit_game` has
run, how many frame iterations have started, and the error log. -/
structure GlobalState where
  modules : List String
  exit_game_called : Bool
  frames_started : ℕ
  log : List String
deriving DecidableEq

def MODULE_WORLD : String := "World"

def MODULE_HUD : String := "Hud"

def MODULE_INPUT : String := "Input"

/-- State at interpreter start: empty registry, nothing logged. -/
def initGlobalState : GlobalState := ⟨[], false, 0, []⟩

/-- `exit_game()`: clear the module registry, quit pygame, and raise
`SystemExit` via `sys.exit()`. -/
def exit_game (g : GlobalState) : GlobalState × PyExc :=
  ({ g with modules := [], exit_game_called := true }, .systemExit)

/-- `ModuleWorld.__init__`: try to connect and register the tick
callback; on any exception, log the connection error and call
`exit_game()`, whose `SystemExit` escapes the `except` block. -/
def ModuleWorld.init (connect_ok : Bool) (g : GlobalState) :
    Except (GlobalState × PyExc) GlobalState :=
  if connect_ok then .ok g
  else .error (exit_game { g with log := g.log ++ ["Failed connecting to CARLA server"] })

/-- `ModuleManager.register_module`: append to the registry. -/
def register_module (g : GlobalState) (name : String) : GlobalState :=
  { g with modules := g.modules ++ [name] }

/-- One iteration of the frame loop body (`module_manager.tick` then
`module_manager.render`).  Neither the loop body nor `game_loop` nor
`ModuleWorld.render` has an exception handler, so a quit event raises
`SystemExit` through `exit_game`, a failed fetch raises its exception
directly, and Ctrl-C raises `KeyboardInterrupt`. -/
def frame (e : FrameEvent) (g : GlobalState) : Except (GlobalState × PyExc) GlobalState :=
  match e with
  | .ok => .ok g
  | .quitRequest => .error (exit_game g)
  | .fetchFail => .error (g, .runtimeError)
  | .ctrlC => .error (g, .keyboardInterrupt)

/-- The `while True` loop of `game_loop`, run for at most `fuel`
iterations (the loop itself has no exit condition; it only ends through
an exception).  `k` numbers the iterations so that `sched k` is what the
environment does on iteration `k`. -/
def frame_loop (sched : ℕ → FrameEvent) :
    ℕ → ℕ → GlobalState → Except (GlobalState × PyExc) GlobalState
  | 0, _, g => .ok g
  | fuel + 1, k, g =>
    match frame (sched k) { g with frames_started := g.frames_started + 1 } with
    | .error x => .error x
    | .ok g1 => frame_loop sched fuel (k + 1) g1

/-- `game_loop(args)`: construct the three modules (the World module
connects, and on failure exits before anything is registered), register
Input, Hud, World in that order, then enter the frame loop. -/
def game_loop (connect_ok : Bool) (sched : ℕ → FrameEvent) (fuel : ℕ) :
    Except (GlobalState × PyExc) GlobalState :=
  match ModuleWorld.init connect_ok initGlobalState with
  | .error x => .error x
  | .ok g =>
    frame_loop sched fuel 0
      (register_module (register_module (register_module g MODULE_INPUT) MODULE_HUD) MODULE_WORLD)

/-- `main()`: run `game_loop` under a handler that catches only
`KeyboardInterrupt` (printing a farewell); every other exception,
`SystemExit` included, propagates and terminates the process. -/
def main_run (connect_ok : Bool) (sched : ℕ → FrameEvent) (fuel : ℕ) :
    Except (GlobalState × PyExc) GlobalState :=
  match game_loop connect_ok sched fuel with
  | .error (g, .keyboardInterrupt) => .ok g
  | r => r

/-- C7: when the connection attempt in `ModuleWorld.__init__` fails, the
error is logged and the process terminates through `exit_game` (the
registry is cleared and `SystemExit` propagates past `main`'s
`KeyboardInterrupt` handler) with the frame loop never entered: no
iteration ever starts, whatever the environment would have done. -/
theorem C7_connect_failure_exits_before_loop (sched : ℕ → FrameEvent) (fuel : ℕ) :
    main_run false sched fuel =
      .error ({ modules := [], exit_game_called := true, frames_started := 0,
                log := ["Failed connecting to CARLA server"] }, .systemExit) := rfl

theorem frame_loop_fetch_fail (sched : ℕ → FrameEvent) (n : ℕ) :
    ∀ (fuel k0 : ℕ) (g : GlobalState), (∀ j, j < n → sched (k0 + j) = .ok) →
      sched (k0 + n) = .fetchFail → n < fuel →
      frame_loop sched fuel k0 g =
        .error ({ g with frames_started := g.frames_started + n + 1 }, .runtimeError) := by
  induction n with
  | zero =>
    intro fuel k0 g _ hfail hfuel
    match fuel, hfuel with
    | fuel + 1, _ =>
      have hk : sched k0 = .fetchFail := by simpa using hfail
      simp [frame_loop, hk, frame]
  | succ n ih =>
    intro fuel k0 g hok hfail hfuel
    match fuel, hfuel with
    | fuel + 1, hfuel =>
      have h0 : sched k0 = .ok := by simpa using hok 0 (Nat.succ_pos n)
      have hrec := ih fuel (k0 + 1) { g with frames_started := g.frames_started + 1 }
        (fun j hj => by
          have hj1 := hok (j + 1) (Nat.succ_lt_succ hj)
          simpa [show k0 + 1 + j = k0 + (j + 1) by omega] using hj1)
        (by simpa [show k0 + 1 + n = k0 + (n + 1) by omega] using hfail)
        (Nat.lt_of_succ_lt_succ hfuel)
      simp only [frame_loop, h0, frame, hrec]
      have harith : g.frames_started + 1 + n + 1 = g.frames_started + (n + 1) + 1 := by omega
      rw [harith]

/-- Counterexample to C1 as stated: with the connection up and the very
first actor/map fetch raising, the run ends with the fetch exception
itself escaping `main`, `exit_game` never called and the module registry
still populated — not with the shared shutdown procedure. -/
theorem C1_counterexample :
    main_run true (fun _ => FrameEvent.fetchFail) 1 =
      .error ({ modules := [ MODULE_INPUT, MODULE_HUD, MODULE_WORLD], exit_game_called := false,
                frames_started := 1, log := [] }, .runtimeError) := rfl

/-- C1 (amended): an unhandled exception in the per-frame fetch/render
path propagates out of `game_loop` uncaught — `main` handles only
`KeyboardInterrupt` — so the process crashes with that exception;
`exit_game` is never invoked and the module registry is not cleared. -/
theorem C1_amended_fetch_fail_crashes (sched : ℕ → FrameEvent) (k fuel : ℕ)
    (hok : ∀ j, j < k → sched j = .ok) (hfail : sched k = .fetchFail) (hfuel : k < fuel) :
    main_run true sched fuel =
      .error ({ modules := [ MODULE_INPUT, MODULE_HUD, MODULE_WORLD], exit_game_called := false,
                frames_started := k + 1, log := [] }, .runtimeError) := by
  have hloop := frame_loop_fetch_fail sched k fuel 0
    (register_module (register_module (register_module initGlobalState MODULE_INPUT)
      MODULE_HUD) MODULE_WORLD)
    (fun j hj => by simpa using hok j hj) (by simpa using hfail) hfuel
  unfold main_run game_loop ModuleWorld.init
  simp only [if_pos trivial, hloop]
  simp [register_module, initGlobalState, MODULE_INPUT, MODULE_HUD, MODULE_WORLD]

/-- Witness for C1 (amended): failure on the first frame with fuel 2. -/
theorem C1_amended_witness :
    main_run true (fun _ => FrameEvent.fetchFail) 2 =
      .error ({ modules := [ MODULE_INPUT, MODULE_HUD, MODULE_WORLD], exit_game_called := false,
                frames_started := 1, log := [] }, .runtimeError) :=
  C1_amended_fetch_fail_crashes (fun _ => .fetchFail) 0 2
    (fun j hj => absurd hj (Nat.not_lt_zero j)) rfl (by norm_num)

/-- Python `str.split(sep)` for a one-character separator, on character
lists. -/
def split_on_char (sep : Char) : List Char → List (List Char)
  | [] => [[]]
  | c :: rest =>
    match split_on_char sep rest with
    | [] => if c == sep then [[], [c]] else [[c]]
    | g :: gs => if c == sep then [] :: g :: gs else (c :: g) :: gs

/-- Python `int()` on a string of decimal digits (the only shape the
`--res` parser feeds it); any other character, or an empty string, makes
it raise, modelled as `none`. -/
def parse_digits : List Char → Option ℕ
  | [] => none
  | cs => cs.foldl
      (fun acc c =>
        match acc with
        | none => none
        | some n => if c.isDigit then some (n * 10 + (c.toNat - 48)) else none)
      (some 0)

/-- The `--res` handling in `main`:
`args.width, args.height = [int(x) for x in args.res.split('x')]`,
failing unless the split yields exactly two parseable parts. -/
def parse_res (res : String) : Option (ℕ × ℕ) :=
  match (split_on_char 'x' res.toList).map parse_digits with
  | [some w, some h] => some (w, h)
  | _ => none

/-- The size `game_loop` passes to `pygame.display.set_mode`: exactly
the pair parsed from `--res`. -/
def main_display_size (res : String) : Option (ℕ × ℕ) := parse_res res

theorem getLast?_cons_concat {α : Type} (a b : α) (l : List α) :
    (a :: (l ++ [b])).getLast? = some b := by
  rw [← List.cons_append]
  exact List.getLast?_concat _

/-- C6: `--res 800x600` parses to width 800 and height 600, which is the
display size `set_mode` receives; and every `ModuleWorld.render` is
independent of the surface size the window resolution produced — its
final blit always has size `(int(1280 * scale_x), int(720 * scale_y))`,
the zoom factors applied to the fixed 1280x720 base, placed at the
current pan offset. -/
theorem C6_res_parse_and_fixed_base_scale :
    main_display_size "800x600" = some (800, 600)
      ∧ (∀ (sz1 sz2 : ℤ × ℤ) (actors : List Actor) (wps : List Location) (vs : ViewState),
          ModuleWorld.render sz1 actors wps vs = ModuleWorld.render sz2 actors wps vs)
      ∧ (∀ (sz : ℤ × ℤ) (actors : List Actor) (wps : List Location) (vs : ViewState),
          (ModuleWorld.render sz actors wps vs).getLast? =
            some (.blit (pyInt (1280 * vs.scale_x), pyInt (720 * vs.scale_y))
              (vs.offset_x, vs.offset_y))) := by
  refine ⟨by decide, fun _ _ _ _ _ => rfl, fun sz actors wps vs => ?_⟩
  unfold ModuleWorld.render
  exact getLast?_cons_concat _ _ _

end NoRendering
